import Mathlib

/-!
Shallow embedding of the deal-scraping pipeline in src/server.js.

The pipeline lives inside the scrape function (lines 64-165): a per-platform
configuration gate, a price parser, a discount calculator, a normalizer over
raw extracted items, a validity filter, a persistence loop against a store
keyed by (platform, external_id), and a run summary.

Numbers are modelled by rationals; the JS NaN value (which parseFloat yields
on a digit-free string) is modelled by none in Option Rat, and every JS
comparison involving NaN is false, which the oGt helper reproduces.
-/

namespace Scraper

/-- Characters kept by the cleaning step of parseTRPrice (src/server.js line 113):
the replace with the class of everything but 0-9 and comma removes every
character that is not a decimal digit or a comma.  Dots are removed too. -/
def keepChar (c : Char) : Bool := c.isDigit || c = ','

/-- JS String.replace with a plain-string pattern replaces only the first
occurrence: the first comma of the cleaned text becomes a dot. -/
def replaceFirstComma : List Char → List Char
  | [] => []
  | c :: cs => if c = ',' then '.' :: cs else c :: replaceFirstComma cs

/-- Numeric value of one decimal digit character. -/
def digitVal (c : Char) : Nat := c.toNat - '0'.toNat

/-- Value of a string of decimal digit characters, most significant first. -/
def digitsVal (ds : List Char) : Nat := ds.foldl (fun n c => 10 * n + digitVal c) 0

/-- Digit-level part of the JS parseFloat semantics, restricted to the inputs
parseTRPrice can produce (digits, at most one dot, commas): the longest prefix
of the form digits, optional dot, digits is read; the result is the integer
part value, the fraction part value and the fraction digit count.  none models
NaN, returned when no digit and no fraction digit is found. -/
def parseFloatParts (cs : List Char) : Option (Nat × Nat × Nat) :=
  let intDigits := cs.takeWhile Char.isDigit
  let rest := cs.drop intDigits.length
  let fracDigits :=
    match rest with
    | '.' :: r => r.takeWhile Char.isDigit
    | _ => []
  if intDigits.isEmpty && fracDigits.isEmpty then none
  else some (digitsVal intDigits, digitsVal fracDigits, fracDigits.length)

/-- Rational value of the digit-level parseFloat result; none stays NaN. -/
def partsToRat : Option (Nat × Nat × Nat) → Option ℚ
  | none => none
  | some (i, f, k) => some ((i : ℚ) + (f : ℚ) / 10 ^ k)

/-- Model of JS parseFloat on the cleaned strings of this pipeline. -/
def parseFloatModel (cs : List Char) : Option ℚ := partsToRat (parseFloatParts cs)

/-- Embedding of parseTRPrice (src/server.js lines 111-114): the empty string
(the only falsy string) yields 0; otherwise every character that is not a
digit or a comma is stripped, the first comma becomes a dot, and the result is
given to parseFloat.  A non-empty input whose cleaned form holds no digits
parses to NaN, modelled as none. -/
def parseTRPrice (str : String) : Option ℚ :=
  if str = "" then some 0
  else parseFloatModel (replaceFirstComma (str.data.filter keepChar))

/-- JS Math.round: round half toward positive infinity. -/
def jsRound (q : ℚ) : ℤ := Int.floor (q + 1 / 2)

/-- Embedding of the discount computation (src/server.js lines 119-122 and
128) on real number inputs: 0 unless the reference price exceeds the current
price and is positive, otherwise the rounded percentage. -/
def discountRate (price originalPrice : ℚ) : ℤ :=
  if originalPrice > price ∧ originalPrice > 0 then
    jsRound ((originalPrice - price) / originalPrice * 100)
  else 0

/-- The same computation when either operand may be NaN: every comparison
with NaN is false in JS, so the guard fails and the discount stays 0
(and Math.round 0 = 0). -/
def discountCalc : Option ℚ → Option ℚ → ℤ
  | some price, some orgPrice => discountRate price orgPrice
  | _, _ => 0

/-- JS strict greater-than on possibly-NaN numbers: false when either side
is NaN. -/
def oGt : Option ℚ → Option ℚ → Bool
  | some a, some b => decide (a > b)
  | _, _ => false

/-- JS String.prototype.trim: whitespace removed from both ends. -/
def jsTrim (s : String) : String :=
  ⟨((s.data.dropWhile Char.isWhitespace).reverse.dropWhile Char.isWhitespace).reverse⟩

/-- JS link.split(chr)[0] for chr the question mark (src/server.js line 132):
the prefix of the link before its first question mark; the whole link when
none occurs; empty for the empty link. -/
def stripQuery (link : String) : String :=
  ⟨link.data.takeWhile (fun c => c != '?')⟩

/-- One raw item as produced by the in-page extraction (src/server.js lines
98-104): all fields are strings, possibly empty. -/
structure RawItem where
  title : String
  priceStr : String
  orgPriceStr : String
  link : String
  img : String
deriving DecidableEq

/-- One normalized product deal (src/server.js lines 124-133). -/
structure Product where
  title : String
  price : Option ℚ
  original_price : Option ℚ
  discount_rate : ℤ
  image_url : String
  product_url : String
  platform : String
  external_id : String
deriving DecidableEq

/-- Embedding of the per-item normalization (src/server.js lines 110-133):
parse both price texts, fall back to the current price when the parsed
reference price is strictly equal to 0 (NaN is not), compute the discount,
trim the title, and strip the query string off the link for the external id. -/
def normalize (platformKey : String) (p : RawItem) : Product :=
  let price := parseTRPrice p.priceStr
  let orgPrice0 := parseTRPrice p.orgPriceStr
  let orgPrice := if orgPrice0 = some 0 then price else orgPrice0
  { title := jsTrim p.title
    price := price
    original_price := orgPrice
    discount_rate := discountCalc price orgPrice
    image_url := p.img
    product_url := p.link
    platform := platformKey
    external_id := stripQuery p.link }

/-- Embedding of the validity filter (src/server.js line 134). -/
def isValid (p : Product) : Bool :=
  decide (p.discount_rate ≥ 40) && oGt p.price (some 0) && decide (p.title.length > 5)

/-- Embedding of the persistence loop (src/server.js lines 139-149) over a
store state holding the set of (platform, external_id) keys already present.

The storage client is external to the repository; its contract is taken from
the spec boundary: an upsert with duplicate-ignoring semantics inserts if the
key is absent and never overwrites, and with a trailing select it resolves
with error null and data the array of returned (inserted) rows — the empty
array when the conflicting key already exists — while a failed request
resolves with a non-null error and no rows.  Per-item failures are injected
through the err oracle.

The source guard on line 147 is the JS test !error && data; a JS array is
truthy even when empty, so whenever error is null the element data[0] is
pushed onto savedItems — for an ignored duplicate that element is undefined,
modelled here as none.  The function returns the final store and the
savedItems list. -/
def upsertBatch (err : Product → Bool) :
    List (String × String) → List Product →
    List (String × String) × List (Option Product)
  | store, [] => (store, [])
  | store, prod :: rest =>
    if err prod then upsertBatch err store rest
    else
      let key := (prod.platform, prod.external_id)
      let data : Option Product := if key ∈ store then none else some prod
      let store2 := if key ∈ store then store else store ++ [key]
      let out := upsertBatch err store2 rest
      (out.1, data :: out.2)

/-- The run summary returned on success (src/server.js lines 151-157). -/
structure Summary where
  status : String
  total_found : Nat
  filtered_count : Nat
  saved_count : Nat
  data : List Product
deriving DecidableEq

/-- Embedding of the body of a successful run (src/server.js lines 110-157):
normalize every raw item, filter, persist the survivors, and assemble the
summary. -/
def runPipeline (err : Product → Bool) (store : List (String × String))
    (platformKey : String) (products : List RawItem) :
    Summary × List (String × String) :=
  let validProducts := (products.map (normalize platformKey)).filter isValid
  let out := upsertBatch err store validProducts
  ({ status := "success"
     total_found := products.length
     filtered_count := validProducts.length
     saved_count := out.2.length
     data := validProducts.take 50 }, out.1)

/-- The platform configuration table (src/server.js lines 10-62), reduced to
the data the scrape control flow consults: key, url, selector.  The per-entry
parser functions are dead code (see the comment on lines 89-93). -/
def CONFIG : List (String × String × String) :=
  [("trendyol", "https://www.trendyol.com/sr?wc=103328&fl=en-cok-one-cikanlar", ".p-card-wrppr"),
   ("temu", "https://www.temu.com/az/channel/lightning-deals.html", ".goods-item")]

/-- Observable outcome of one scrape call: the JSON-shaped result (either an
error object or a summary), whether the headless browser was launched, and
the final store state. -/
structure ScrapeOutcome where
  result : Except String Summary
  browserLaunched : Bool
  finalStore : List (String × String)

/-- Embedding of scrape (src/server.js lines 64-165).  The browser layer is
external: its outcome is passed in as either the extracted raw items or the
message of the exception thrown during navigation, extraction or batch setup
inside the try block; the catch on lines 159-164 turns that exception into an
error result.  An unknown platform key returns early on line 65, before the
browser is launched and before the store is touched. -/
def scrape (err : Product → Bool) (store : List (String × String)) (platformKey : String)
    (extraction : Except String (List RawItem)) : ScrapeOutcome :=
  match CONFIG.find? (fun c => c.1 == platformKey) with
  | none => ⟨Except.error "Platform not supported", false, store⟩
  | some _ =>
    match extraction with
    | Except.error e => ⟨Except.error e, true, store⟩
    | Except.ok products =>
      let out := runPipeline err store platformKey products
      ⟨Except.ok out.1, true, out.2⟩

/-- A concrete deal used to instantiate batch-level statements. -/
def sampleDeal : Product :=
  { title := "Brand ShirtX"
    price := some 10
    original_price := some 20
    discount_rate := 50
    image_url := ""
    product_url := "https://x/p/1"
    platform := "trendyol"
    external_id := "https://x/p/1" }

/-- A concrete raw item with no reference price text. -/
def sampleRaw : RawItem :=
  { title := "Brand ShirtX"
    priceStr := "59,99 TL"
    orgPriceStr := ""
    link := "https://x/p/1"
    img := "" }

/-- The discount of a deal whose reference price equals its current price is
0: the strict guard fails (also when both are NaN). -/
theorem discountCalc_self (o : Option ℚ) : discountCalc o o = 0 := by
  cases o with
  | none => rfl
  | some q =>
    show discountRate q q = 0
    rw [discountRate, if_neg]
    rintro ⟨h, -⟩
    exact lt_irrefl q h

/-- The part of a list dropped by takeWhile is either empty or starts with a
character refuting the predicate. -/
theorem dropWhile_first_not (p : Char → Bool) (l : List Char) :
    l.dropWhile p = [] ∨ ∃ c r, l.dropWhile p = c :: r ∧ p c = false := by
  induction l with
  | nil => exact Or.inl rfl
  | cons c cs ih =>
    rw [List.dropWhile_cons]
    by_cases h : p c = true
    · simpa [h] using ih
    · exact Or.inr ⟨c, cs, by simp [h], by simpa using h⟩

/-- C2 counterexample: the price parser, as the code defines it, does not
send the digit-free string abc to 0 (it yields NaN, modelled none), and it
strips a dot instead of keeping it as a decimal separator: on the input
19.5 TL it yields 195 instead of 19.5. -/
theorem parseTRPrice_claim_counterexample :
    parseTRPrice "abc" ≠ some 0 ∧ parseTRPrice "abc" = none ∧
    parseTRPrice "19.5 TL" = some 195 ∧ parseTRPrice "19.5 TL" ≠ some (39 / 2) := by
  have habc : parseTRPrice "abc" = none := by
    have h : parseFloatParts (replaceFirstComma ("abc".data.filter keepChar)) = none := by
      decide
    rw [parseTRPrice, if_neg (by decide), parseFloatModel, h, partsToRat]
  have h195 : parseTRPrice "19.5 TL" = some 195 := by
    have h : parseFloatParts (replaceFirstComma ("19.5 TL".data.filter keepChar)) =
        some (195, 0, 0) := by decide
    rw [parseTRPrice, if_neg (by decide), parseFloatModel, h]
    norm_num [partsToRat]
  refine ⟨?_, habc, h195, ?_⟩
  · rw [habc]
    exact fun h => Option.noConfusion h
  · rw [h195]
    intro h
    have h2 : (195 : ℚ) = 39 / 2 := Option.some.inj h
    norm_num at h2

/-- C2 amended: the parser keeps exactly the digits and commas of its input
(every other character, dots included, is stripped), treats the first comma as
the decimal separator, and returns the parseFloat value of the cleaned text;
the empty string yields 0; a non-empty input whose cleaned form holds no
digits yields NaN (none), not 0.  Hence the result of a non-empty input
depends only on its digit-and-comma subsequence, parse of 129,99 TL is
129.99, parse of the empty string is 0, and parse of abc is NaN. -/
theorem parseTRPrice_spec :
    parseTRPrice "129,99 TL" = some (12999 / 100) ∧
    parseTRPrice "" = some 0 ∧
    parseTRPrice "abc" = none ∧
    ∀ s t : String, s ≠ "" → t ≠ "" →
      s.data.filter keepChar = t.data.filter keepChar →
      parseTRPrice s = parseTRPrice t := by
  refine ⟨?_, rfl, ?_, ?_⟩
  · have h : parseFloatParts (replaceFirstComma ("129,99 TL".data.filter keepChar)) =
        some (129, 99, 2) := by decide
    rw [parseTRPrice, if_neg (by decide), parseFloatModel, h]
    norm_num [partsToRat]
  · have h : parseFloatParts (replaceFirstComma ("abc".data.filter keepChar)) = none := by
      decide
    rw [parseTRPrice, if_neg (by decide), parseFloatModel, h, partsToRat]
  · intro s t hs ht h
    rw [parseTRPrice, parseTRPrice, if_neg hs, if_neg ht, h]

/-- C2 witness: instantiating the invariance part of the amended statement on
two concrete strings with the same digit-and-comma subsequence. -/
theorem parseTRPrice_spec_witness :
    parseTRPrice "a1,5x" = parseTRPrice "1b,c5" :=
  parseTRPrice_spec.2.2.2 "a1,5x" "1b,c5" (by decide) (by decide) (by decide)

/-- C3: a deal passes the validity filter iff its discount rate is at least
40, its price is a (non-NaN) number above 0, and its title is longer than 5
characters; at the boundaries a deal with rate 40 passes and rate 39 fails,
and a deal with a 5-character title fails while a 6-character title passes. -/
theorem isValid_spec :
    (∀ d : Product, isValid d = true ↔
      40 ≤ d.discount_rate ∧ (∃ q : ℚ, d.price = some q ∧ 0 < q) ∧ 5 < d.title.length) ∧
    isValid { title := "abcdef", price := some 10, original_price := some 20,
              discount_rate := 40, image_url := "", product_url := "",
              platform := "trendyol", external_id := "" } = true ∧
    isValid { title := "abcdef", price := some 10, original_price := some 20,
              discount_rate := 39, image_url := "", product_url := "",
              platform := "trendyol", external_id := "" } = false ∧
    isValid { title := "abcde", price := some 10, original_price := some 20,
              discount_rate := 40, image_url := "", product_url := "",
              platform := "trendyol", external_id := "" } = false ∧
    isValid { title := "abcdef", price := some 10, original_price := some 20,
              discount_rate := 45, image_url := "", product_url := "",
              platform := "trendyol", external_id := "" } = true := by
  refine ⟨?_, by decide, by decide, by decide, by decide⟩
  intro d
  rw [isValid]
  cases hp : d.price with
  | none =>
    simp [oGt]
  | some q =>
    simp only [oGt, Bool.and_eq_true, decide_eq_true_eq]
    constructor
    · rintro ⟨⟨h1, h2⟩, h3⟩
      exact ⟨h1, ⟨q, rfl, h2⟩, h3⟩
    · rintro ⟨h1, ⟨q2, hq2, h2⟩, h3⟩
      obtain rfl : q2 = q := (Option.some.inj hq2).symm
      exact ⟨⟨h1, h2⟩, h3⟩

/-- C4: the discount rate is 0 when the reference price is at most the
current price or at most 0, and otherwise is the half-up rounding of
100 * (originalPrice - price) / originalPrice; it is never negative; the four
documented sample values hold. -/
theorem discountRate_spec :
    (∀ price op : ℚ,
      (op ≤ price ∨ op ≤ 0 → discountRate price op = 0) ∧
      (price < op ∧ 0 < op → discountRate price op = jsRound (100 * (op - price) / op)) ∧
      0 ≤ discountRate price op) ∧
    discountRate 100 200 = 50 ∧ discountRate 200 100 = 0 ∧
    discountRate 100 100 = 0 ∧ discountRate 0 0 = 0 := by
  refine ⟨?_, ?_, ?_, ?_, ?_⟩
  · intro price op
    refine ⟨?_, ?_, ?_⟩
    · intro h
      rw [discountRate, if_neg]
      rintro ⟨h1, h2⟩
      rcases h with h | h
      · exact absurd h1 (not_lt.mpr h)
      · exact absurd h2 (not_lt.mpr h)
    · rintro ⟨h1, h2⟩
      rw [discountRate, if_pos ⟨h1, h2⟩]
      congr 1
      ring
    · rw [discountRate]
      split_ifs with h
      · rcases h with ⟨h1, h2⟩
        rw [jsRound]
        have hd : 0 < (op - price) / op := div_pos (sub_pos.mpr h1) h2
        have hx : (0 : ℚ) ≤ (op - price) / op * 100 + 1 / 2 := by nlinarith
        exact Int.le_floor.mpr (by exact_mod_cast hx)
      · exact le_refl 0
  · rw [discountRate, if_pos (by norm_num), jsRound]
    norm_num
  · rw [discountRate, if_neg (by norm_num)]
  · rw [discountRate, if_neg (by norm_num)]
  · rw [discountRate, if_neg (by norm_num)]

/-- C4 witness: the general clauses instantiated at concrete prices. -/
theorem discountRate_spec_witness :
    discountRate 100 200 = jsRound (100 * (200 - 100) / 200) ∧ discountRate 200 100 = 0 :=
  ⟨(discountRate_spec.1 100 200).2.1 ⟨by norm_num, by norm_num⟩,
   (discountRate_spec.1 200 100).1 (Or.inl (by norm_num))⟩

/-- C5: a successful run reports total_found equal to the number of raw
items, filtered_count equal to the number of normalized deals passing the
validity filter, status success, and data the first 50 of the filtered deals;
data is an order-preserving subsequence of the normalized batch. -/
theorem run_summary_spec :
    ∀ (err : Product → Bool) (store : List (String × String)) (k : String)
      (products : List RawItem),
      (runPipeline err store k products).1.status = "success" ∧
      (runPipeline err store k products).1.total_found = products.length ∧
      (runPipeline err store k products).1.filtered_count =
        (products.map (normalize k)).countP isValid ∧
      (runPipeline err store k products).1.data =
        ((products.map (normalize k)).filter isValid).take 50 ∧
      List.Sublist (runPipeline err store k products).1.data
        (products.map (normalize k)) := by
  intro err store k products
  refine ⟨rfl, rfl, ?_, rfl, ?_⟩
  · exact (List.countP_eq_length_filter _ _).symm
  · show List.Sublist (((products.map (normalize k)).filter isValid).take 50)
      (products.map (normalize k))
    exact (List.take_sublist _ _).trans (List.filter_sublist _)

/-- C6: the external id of a normalized item is the prefix of its link before
the first question mark: the link decomposes as the external id followed by a
rest that is either empty or starts with a question mark, and the external id
itself holds no question mark; an empty link gives an empty external id; the
documented sample value holds. -/
theorem external_id_spec :
    (∀ (k : String) (p : RawItem), ∃ rest : List Char,
      p.link.data = (normalize k p).external_id.data ++ rest ∧
      (∀ c ∈ (normalize k p).external_id.data, c ≠ '?') ∧
      (rest = [] ∨ ∃ r, rest = '?' :: r)) ∧
    (∀ (k : String) (p : RawItem), p.link = "" → (normalize k p).external_id = "") ∧
    stripQuery "https://x/p/123?ref=abc" = "https://x/p/123" := by
  refine ⟨?_, ?_, by decide⟩
  · intro k p
    refine ⟨p.link.data.dropWhile (fun c => c != '?'), ?_, ?_, ?_⟩
    · exact (List.takeWhile_append_dropWhile (fun c => c != '?') p.link.data).symm
    · intro c hc
      have h := List.mem_takeWhile_imp hc
      simpa using h
    · rcases dropWhile_first_not (fun c => c != '?') p.link.data with h | ⟨c, r, h, hc⟩
      · exact Or.inl h
      · refine Or.inr ⟨r, ?_⟩
        have : c = '?' := by simpa using hc
        rw [h, this]
  · intro k p h
    show stripQuery p.link = ""
    rw [h]
    rfl

/-- C6 witness: the empty-link clause instantiated on a concrete item. -/
theorem external_id_spec_witness :
    (normalize "trendyol" ⟨"T", "1", "2", "", ""⟩).external_id = "" :=
  external_id_spec.2.1 "trendyol" ⟨"T", "1", "2", "", ""⟩ rfl

/-- C7: when the reference price text parses to 0, normalization falls back
to the parsed current price for original_price, and the discount rate of the
item is then 0. -/
theorem originalPrice_fallback_spec :
    ∀ (k : String) (p : RawItem), parseTRPrice p.orgPriceStr = some 0 →
      (normalize k p).original_price = (normalize k p).price ∧
      (normalize k p).discount_rate = 0 := by
  intro k p h
  constructor
  · show (if parseTRPrice p.orgPriceStr = some 0 then parseTRPrice p.priceStr
      else parseTRPrice p.orgPriceStr) = parseTRPrice p.priceStr
    rw [if_pos h]
  · show discountCalc (parseTRPrice p.priceStr)
      (if parseTRPrice p.orgPriceStr = some 0 then parseTRPrice p.priceStr
        else parseTRPrice p.orgPriceStr) = 0
    rw [if_pos h]
    exact discountCalc_self _

/-- C7 witness: a raw item with an empty reference price text (which parses
to 0) gets its current price as original price and discount 0. -/
theorem originalPrice_fallback_witness :
    (normalize "trendyol" sampleRaw).original_price = (normalize "trendyol" sampleRaw).price ∧
    (normalize "trendyol" sampleRaw).discount_rate = 0 :=
  originalPrice_fallback_spec "trendyol" sampleRaw rfl

/-- C8: a deal whose upsert fails is skipped — excluded from savedItems, with
the store untouched by it — and the rest of the batch is processed exactly as
if the failing deal were absent, so one item's persistence error never aborts
the batch or changes any other item's outcome. -/
theorem upsert_error_isolated :
    ∀ (err : Product → Bool) (store : List (String × String)) (pre post : List Product)
      (d : Product), err d = true →
      upsertBatch err store (pre ++ d :: post) = upsertBatch err store (pre ++ post) := by
  intro err store pre post d h
  induction pre generalizing store with
  | nil =>
    simp only [List.nil_append]
    rw [upsertBatch, if_pos h]
  | cons p pre ih =>
    simp only [List.cons_append]
    by_cases hp : err p = true
    · rw [upsertBatch, upsertBatch, if_pos hp, if_pos hp]
      exact ih store
    · rw [upsertBatch, upsertBatch, if_neg hp, if_neg hp]
      simp only [ih]

/-- C8 witness: a batch holding one failing deal behaves as the empty batch. -/
theorem upsert_error_isolated_witness :
    upsertBatch (fun _ => true) [] [sampleDeal] = upsertBatch (fun _ => true) [] [] :=
  upsert_error_isolated (fun _ => true) [] [] [] sampleDeal rfl

/-- C9: for a configured platform, an exception thrown inside the try block
(navigation, extraction, batch setup) is caught and the caller receives the
error object holding its message — never a partial summary — with the store
untouched. -/
theorem scrape_error_spec :
    ∀ (err : Product → Bool) (store : List (String × String)) (key msg : String),
      (CONFIG.find? (fun c => c.1 == key)).isSome = true →
      scrape err store key (Except.error msg) = ⟨Except.error msg, true, store⟩ := by
  intro err store key msg h
  cases hf : CONFIG.find? (fun c => c.1 == key) with
  | none =>
    rw [hf] at h
    exact absurd h (by simp)
  | some c =>
    simp only [scrape, hf]

/-- C9 witness: a navigation failure on the trendyol platform surfaces as the
error result with its message. -/
theorem scrape_error_spec_witness :
    scrape (fun _ => false) [] "trendyol" (Except.error "timeout 60000ms exceeded") =
      ⟨Except.error "timeout 60000ms exceeded", true, []⟩ :=
  scrape_error_spec (fun _ => false) [] "trendyol" "timeout 60000ms exceeded" (by decide)

/-- C10: a platform key absent from the configuration makes scrape return the
Platform-not-supported error at once, whatever the browser layer or the error
oracle would have done: the browser is not launched and the store is left
exactly as it was. -/
theorem scrape_unsupported_spec :
    ∀ (err : Product → Bool) (store : List (String × String)) (key : String)
      (extraction : Except String (List RawItem)),
      CONFIG.find? (fun c => c.1 == key) = none →
      scrape err store key extraction =
        ⟨Except.error "Platform not supported", false, store⟩ := by
  intro err store key ex h
  simp only [scrape, h]

/-- C10 witness: the unknown key amazon is rejected without any effect. -/
theorem scrape_unsupported_witness :
    scrape (fun _ => false) [] "amazon" (Except.ok [sampleRaw]) =
      ⟨Except.error "Platform not supported", false, []⟩ :=
  scrape_unsupported_spec (fun _ => false) [] "amazon" (Except.ok [sampleRaw]) (by decide)

/-- C1: evaluating the persistence loop on a one-deal batch run twice shows
the bug: the first run from the empty store reports one saved item, but the
identical second run still reports one — not zero — because the guard on the
push (the JS test of error being null and data truthy) also passes when the
duplicate was ignored and the returned row array is empty, pushing the
undefined element data[0] (modelled none) onto savedItems. -/
theorem upsertBatch_rerun_saved_count :
    (upsertBatch (fun _ => false) [] [sampleDeal]).2.length = 1 ∧
    (upsertBatch (fun _ => false)
      (upsertBatch (fun _ => false) [] [sampleDeal]).1 [sampleDeal]).2 = [none] ∧
    (upsertBatch (fun _ => false)
      (upsertBatch (fun _ => false) [] [sampleDeal]).1 [sampleDeal]).2.length = 1 := by
  refine ⟨rfl, ?_, rfl⟩
  decide

end Scraper
